import Mathlib

/-!
Verification of the Stencila Node.js plugin template dispatch core
(`src/index.js`): the JSON codec, the `Plugin` class's JSON-RPC
dispatcher (`handleRequest`), its capability methods, and the HTTP
transport's per-request handler (`listenHttp`).

The embedding follows the JavaScript source: `JSON.parse` is modelled by
a fuel-indexed total parser over the JSON grammar, `JSON.stringify` by a
structural encoder, JavaScript `undefined` by `Option.none` (distinct
from JSON `null`), and a thrown JavaScript error by `Except.error`
carrying the `String(error)` rendering used by the source's template
literals.
-/

set_option maxRecDepth 10000

/-- A JSON value as produced by `JSON.parse`. `undefined` is not a JSON
value; where the JavaScript code distinguishes `undefined` we use
`Option Json` with `none` for `undefined`. -/
inductive Json where
  | null : Json
  | bool : Bool → Json
  | num : Rat → Json
  | str : String → Json
  | arr : List Json → Json
  | obj : List (String × Json) → Json
deriving Repr

/- Named characters of the JSON wire syntax. -/

def quoteC : Char := Char.ofNat 34

def backslashC : Char := Char.ofNat 92

def lbraceC : Char := Char.ofNat 123

def rbraceC : Char := Char.ofNat 125

def isJsonWs (c : Char) : Bool :=
  c == ' ' || c == Char.ofNat 9 || c == Char.ofNat 10 || c == Char.ofNat 13

def skipWs : List Char → List Char
  | [] => []
  | c :: cs => if isJsonWs c then skipWs cs else c :: cs

def isDigitC (c : Char) : Bool := '0' ≤ c && c ≤ '9'

def digitVal (c : Char) : Nat := c.toNat - 48

def hexVal (c : Char) : Option Nat :=
  if '0' ≤ c && c ≤ '9' then some (c.toNat - 48)
  else if 'a' ≤ c && c ≤ 'f' then some (c.toNat - 87)
  else if 'A' ≤ c && c ≤ 'F' then some (c.toNat - 55)
  else none

def pushC (c : Char) (p : List Char × List Char) : List Char × List Char :=
  (c :: p.1, p.2)

/-- Parse the body of a JSON string literal, after the opening quote.
Returns the decoded characters and the remaining input after the closing
quote. Mirrors the JSON string grammar accepted by `JSON.parse`:
escapes for quote, backslash, slash, b, f, n, r, t and uXXXX, and raw
control characters below 0x20 rejected. (A `uXXXX` escape denoting a
lone UTF-16 surrogate has no counterpart in Lean `Char` and is mapped
through `Char.ofNat`; no request in scope uses such escapes.) -/
def parseStrBody : List Char → Option (List Char × List Char)
  | [] => none
  | c :: cs =>
    if c == quoteC then some ([], cs)
    else if c == backslashC then
      match cs with
      | [] => none
      | e :: cs' =>
        if e == quoteC then pushC quoteC <$> parseStrBody cs'
        else if e == backslashC then pushC backslashC <$> parseStrBody cs'
        else if e == '/' then pushC '/' <$> parseStrBody cs'
        else if e == 'b' then pushC (Char.ofNat 8) <$> parseStrBody cs'
        else if e == 'f' then pushC (Char.ofNat 12) <$> parseStrBody cs'
        else if e == 'n' then pushC (Char.ofNat 10) <$> parseStrBody cs'
        else if e == 'r' then pushC (Char.ofNat 13) <$> parseStrBody cs'
        else if e == 't' then pushC (Char.ofNat 9) <$> parseStrBody cs'
        else if e == 'u' then
          match cs' with
          | h1 :: h2 :: h3 :: h4 :: cs'' =>
            match hexVal h1, hexVal h2, hexVal h3, hexVal h4 with
            | some a, some b, some c3, some d =>
              pushC (Char.ofNat (a * 4096 + b * 256 + c3 * 16 + d)) <$> parseStrBody cs''
            | _, _, _, _ => none
          | _ => none
        else none
    else if c.toNat < 32 then none
    else pushC c <$> parseStrBody cs

def takeDigits : List Char → List Char × List Char
  | [] => ([], [])
  | c :: cs =>
    if isDigitC c then
      let p := takeDigits cs
      (c :: p.1, p.2)
    else ([], c :: cs)

def digitsToNat (ds : List Char) : Nat :=
  ds.foldl (fun a c => a * 10 + digitVal c) 0

/-- Assemble the rational value of a JSON number literal:
sign, integer digits, fraction digits, decimal exponent.
(JavaScript numbers are IEEE doubles; parsed values in scope are small
integers, for which the rational value is exact.) -/
def mkJsonNum (neg : Bool) (ip : Nat) (fd : List Char) (e : Int) : Rat :=
  let base : Rat := (ip : Rat) + (digitsToNat fd : Rat) / ((10 ^ fd.length : Nat) : Rat)
  let scaled : Rat :=
    if 0 ≤ e then base * ((10 ^ e.toNat : Nat) : Rat)
    else base / ((10 ^ (-e).toNat : Nat) : Rat)
  if neg then -scaled else scaled

/-- Parse a JSON number literal: `-?(0|[1-9][0-9]*)(.[0-9]+)?([eE][+-]?[0-9]+)?`. -/
def parseNum (cs0 : List Char) : Option (Json × List Char) := do
  let (neg, cs1) :=
    match cs0 with
    | '-' :: rest => (true, rest)
    | _ => (false, cs0)
  let (ipDigits, cs2) ←
    match cs1 with
    | '0' :: rest => some (['0'], rest)
    | c :: _ =>
      if isDigitC c then
        let p := takeDigits cs1
        some (p.1, p.2)
      else none
    | [] => none
  let (fracDigits, cs3) ←
    match cs2 with
    | '.' :: rest =>
      let p := takeDigits rest
      if p.1.isEmpty then none else some (p.1, p.2)
    | _ => some ([], cs2)
  let (expVal, cs4) ←
    match cs3 with
    | c :: rest =>
      if c == 'e' || c == 'E' then
        let (esign, rest1) :=
          match rest with
          | '+' :: r => ((1 : Int), r)
          | '-' :: r => ((-1 : Int), r)
          | _ => ((1 : Int), rest)
        let p := takeDigits rest1
        if p.1.isEmpty then none else some (esign * (digitsToNat p.1 : Int), p.2)
      else some ((0 : Int), cs3)
    | [] => some ((0 : Int), cs3)
  pure (Json.num (mkJsonNum neg (digitsToNat ipDigits) fracDigits expVal), cs4)

/-- Insert a key/value pair as JavaScript object-literal evaluation does:
a repeated key keeps its first position but takes the last value. -/
def insertKV : List (String × Json) → String → Json → List (String × Json)
  | [], k, v => [(k, v)]
  | (k', v') :: rest, k, v =>
    if k' == k then (k', v) :: rest else (k', v') :: insertKV rest k v

def collapseDups (l : List (String × Json)) : List (String × Json) :=
  l.foldl (fun acc p => insertKV acc p.1 p.2) []

mutual

/-- Parse one JSON value. The fuel bounds nesting depth; it is
decremented on each descent and `parseJson` supplies more fuel than the
input length, so the zero-fuel branch is unreachable for real inputs. -/
def parseVal : Nat → List Char → Option (Json × List Char)
  | 0, _ => none
  | fuel + 1, cs =>
    match cs with
    | [] => none
    | c :: cs' =>
      if c == quoteC then
        (parseStrBody cs').map fun p => (Json.str (String.mk p.1), p.2)
      else if c == '[' then
        match skipWs cs' with
        | ']' :: rest => some (Json.arr [], rest)
        | cs1 => (parseElems fuel cs1).map fun p => (Json.arr p.1, p.2)
      else if c == lbraceC then
        match skipWs cs' with
        | d :: rest =>
          if d == rbraceC then some (Json.obj [], rest)
          else (parseMembers fuel (d :: rest)).map fun p => (Json.obj (collapseDups p.1), p.2)
        | [] => none
      else if c == 't' then
        match cs' with
        | 'r' :: 'u' :: 'e' :: rest => some (Json.bool true, rest)
        | _ => none
      else if c == 'f' then
        match cs' with
        | 'a' :: 'l' :: 's' :: 'e' :: rest => some (Json.bool false, rest)
        | _ => none
      else if c == 'n' then
        match cs' with
        | 'u' :: 'l' :: 'l' :: rest => some (Json.null, rest)
        | _ => none
      else parseNum cs

/-- Parse the elements of a non-empty JSON array, up to and including the
closing bracket. -/
def parseElems : Nat → List Char → Option (List Json × List Char)
  | 0, _ => none
  | fuel + 1, cs => do
    let (v, rest) ← parseVal fuel cs
    match skipWs rest with
    | ',' :: rest2 => do
      let (vs, rest3) ← parseElems fuel (skipWs rest2)
      pure (v :: vs, rest3)
    | ']' :: rest2 => pure ([v], rest2)
    | _ => none

/-- Parse the members of a non-empty JSON object, up to and including the
closing brace. -/
def parseMembers : Nat → List Char → Option (List (String × Json) × List Char)
  | 0, _ => none
  | fuel + 1, cs =>
    match cs with
    | c :: cs1 =>
      if c == quoteC then do
        let (k, rest) ← parseStrBody cs1
        match skipWs rest with
        | ':' :: rest2 => do
          let (v, rest3) ← parseVal fuel (skipWs rest2)
          match skipWs rest3 with
          | ',' :: rest4 =>
            match skipWs rest4 with
            | c2 :: rest5 => do
              let (ms, rest6) ← parseMembers fuel (c2 :: rest5)
              pure ((String.mk k, v) :: ms, rest6)
            | [] => none
          | d :: rest4 =>
            if d == rbraceC then pure ([(String.mk k, v)], rest4) else none
          | [] => none
        | _ => none
      else none
    | [] => none

end

/-- Model of `JSON.parse` as used by `handleRequest`: `none` is a thrown
`SyntaxError` (decode failure), `some v` a successfully parsed value. -/
def parseJson (s : String) : Option Json :=
  match parseVal (s.length + 1) (skipWs s.data) with
  | some (v, rest) => if skipWs rest = [] then some v else none
  | none => none

/-- Decimal digits of a fractional remainder `r / d`, by long division.
Used only to approximate JavaScript float formatting for non-integer
numbers, which no request in scope produces. -/
def decDigits : Nat → Nat → Nat → List Char
  | 0, _, _ => []
  | _, 0, _ => []
  | f + 1, r, d =>
    let r10 := r * 10
    Char.ofNat (48 + r10 / d) :: decDigits f (r10 % d) d

/-- `JSON.stringify` / `String(...)` rendering of a number. Exact for
integers (the only case the dispatch core produces or the claims
exercise). -/
def numToString (q : Rat) : String :=
  if q.den = 1 then toString q.num
  else
    let sign := if q.num < 0 then "-" else ""
    let n := q.num.natAbs
    sign ++ toString (n / q.den) ++ "." ++ String.mk (decDigits 20 (n % q.den) q.den)

def hexDigitC (n : Nat) : Char :=
  if n < 10 then Char.ofNat (48 + n) else Char.ofNat (87 + n)

/-- Escape one character as `JSON.stringify` does inside a string
literal. -/
def escapeChar (c : Char) : List Char :=
  if c == quoteC then [backslashC, quoteC]
  else if c == backslashC then [backslashC, backslashC]
  else if c == Char.ofNat 8 then [backslashC, 'b']
  else if c == Char.ofNat 9 then [backslashC, 't']
  else if c == Char.ofNat 10 then [backslashC, 'n']
  else if c == Char.ofNat 12 then [backslashC, 'f']
  else if c == Char.ofNat 13 then [backslashC, 'r']
  else if c.toNat < 32 then
    [backslashC, 'u', '0', '0', hexDigitC (c.toNat / 16), hexDigitC (c.toNat % 16)]
  else [c]

def encodeJsonStr (s : String) : String :=
  String.mk (quoteC :: (s.data.flatMap escapeChar) ++ [quoteC])

mutual

/-- Model of `JSON.stringify` on parsed JSON values (no `undefined`
inside such values, so no member is ever dropped below the top level). -/
def encodeJson : Json → String
  | Json.null => "null"
  | Json.bool b => cond b "true" "false"
  | Json.num q => numToString q
  | Json.str s => encodeJsonStr s
  | Json.arr xs => "[" ++ encodeArr xs ++ "]"
  | Json.obj kvs =>
    String.singleton lbraceC ++ encodeObjMembers kvs ++ String.singleton rbraceC

def encodeArr : List Json → String
  | [] => ""
  | [x] => encodeJson x
  | x :: y :: rest => encodeJson x ++ "," ++ encodeArr (y :: rest)

def encodeObjMembers : List (String × Json) → String
  | [] => ""
  | [(k, v)] => encodeJsonStr k ++ ":" ++ encodeJson v
  | (k, v) :: m :: rest =>
    encodeJsonStr k ++ ":" ++ encodeJson v ++ "," ++ encodeObjMembers (m :: rest)

end

mutual

/-- JavaScript `ToString` coercion of a parsed JSON value, as applied by
`ToPropertyKey` for `this[method]` and by `JSON.parse`'s argument
coercion. -/
def jsToStr : Json → String
  | Json.null => "null"
  | Json.bool b => cond b "true" "false"
  | Json.num q => numToString q
  | Json.str s => s
  | Json.arr xs => jsArrToStr xs
  | Json.obj _ => "[object Object]"

/-- `Array.prototype.toString`: elements joined with commas, `null`
elements rendered empty. -/
def jsArrToStr : List Json → String
  | [] => ""
  | [Json.null] => ""
  | [x] => jsToStr x
  | Json.null :: y :: rest => "," ++ jsArrToStr (y :: rest)
  | x :: y :: rest => jsToStr x ++ "," ++ jsArrToStr (y :: rest)

end

/-- JavaScript property-key coercion of the (possibly `undefined`) value
of the request's `method` member. -/
def propKey : Option Json → String
  | none => "undefined"
  | some j => jsToStr j

/-- JavaScript property access `j[k]` for the keys this program reads
(`id`, `method`, `params`, and the capability parameter names): `none`
is `undefined`. None of those keys collides with a built-in property of
a primitive or array, so non-objects yield `undefined`. -/
def jsGetProp (j : Json) (k : String) : Option Json :=
  match j with
  | Json.obj kvs => (kvs.find? (fun p => p.1 == k)).map (fun p => p.2)
  | _ => none

/-- JavaScript object destructuring `const { a, ... } = v`: throws a
`TypeError` when `v` is `undefined` or `null`, otherwise yields the
value whose properties are then read. The message approximates the V8
text, naming the first destructured property. -/
def jsDestructure (v : Option Json) (firstProp : String) : Except String Json :=
  match v with
  | none =>
    Except.error ("TypeError: Cannot destructure property \x27" ++ firstProp ++
      "\x27 of \x27undefined\x27 as it is undefined.")
  | some Json.null =>
    Except.error ("TypeError: Cannot destructure property \x27" ++ firstProp ++
      "\x27 of \x27null\x27 as it is null.")
  | some j => Except.ok j

/-- Context the process supplies to the plugin: the clock read by
`health` (`Date.now()`, milliseconds) and the environment read by `run`. -/
structure Ctx where
  nowMs : Nat
  env : String → Option String

/-- The shape of a capability as invoked by the dispatcher: it receives
the request's `params` value (`none` when absent) and either returns a
value (`none` for `undefined`) or throws. -/
def Capability : Type := Option Json → Except String (Option Json)

/-- `Plugin.health`. -/
def health (ctx : Ctx) : Except String (Option Json) :=
  Except.ok (some (Json.obj
    [("timestamp", Json.num ((ctx.nowMs / 1000 : Nat) : Rat)),
     ("status", Json.str "OK")]))

/-- `Plugin.kernelStart`: identity passthrough, `{ instance: kernel }`.
A property whose value is `undefined` is omitted by `JSON.stringify`;
the omission is applied here, at construction. -/
def kernelStart (kernel : Option Json) : Except String (Option Json) :=
  Except.ok (some (Json.obj (match kernel with
    | none => []
    | some v => [("instance", v)])))

/-- `Plugin.kernel_start`: destructures `{ kernel }` from `params` and
delegates to `kernelStart`. -/
def kernel_start : Capability := fun params => do
  let o ← jsDestructure params "kernel"
  kernelStart (jsGetProp o "kernel")

/-- `Plugin.kernelStop`: no-op, returns `undefined`. -/
def kernelStop (_inst : Option Json) : Except String (Option Json) :=
  Except.ok none

/-- `Plugin.kernel_stop`. -/
def kernel_stop : Capability := fun params => do
  let o ← jsDestructure params "instance"
  kernelStop (jsGetProp o "instance")

/-- `Plugin.kernelInfo`: the default implementation throws. -/
def kernelInfo (_inst : Option Json) : Except String (Option Json) :=
  Except.error
    "Error: Method `kernelInfo` must be overridden by plugins that provide one or more kernels"

/-- `Plugin.kernel_info`. -/
def kernel_info : Capability := fun params => do
  let o ← jsDestructure params "instance"
  kernelInfo (jsGetProp o "instance")

/-- `Plugin.kernelPackages`: returns an empty list. -/
def kernelPackages (_inst : Option Json) : Except String (Option Json) :=
  Except.ok (some (Json.arr []))

/-- `Plugin.kernel_packages`. -/
def kernel_packages : Capability := fun params => do
  let o ← jsDestructure params "instance"
  kernelPackages (jsGetProp o "instance")

/-- `Plugin.kernelExecute`: returns `{ outputs: [], messages: [] }`. -/
def kernelExecute (_code _inst : Option Json) : Except String (Option Json) :=
  Except.ok (some (Json.obj [("outputs", Json.arr []), ("messages", Json.arr [])]))

/-- `Plugin.kernel_execute`. -/
def kernel_execute : Capability := fun params => do
  let o ← jsDestructure params "code"
  kernelExecute (jsGetProp o "code") (jsGetProp o "instance")

/-- `Plugin.kernelEvaluate`: returns `{ output: [], messages: [] }`. -/
def kernelEvaluate (_code _inst : Option Json) : Except String (Option Json) :=
  Except.ok (some (Json.obj [("output", Json.arr []), ("messages", Json.arr [])]))

/-- `Plugin.kernel_evaluate`. -/
def kernel_evaluate : Capability := fun params => do
  let o ← jsDestructure params "code"
  kernelEvaluate (jsGetProp o "code") (jsGetProp o "instance")

/-- `Plugin.kernelList`: returns an empty list. -/
def kernelList (_inst : Option Json) : Except String (Option Json) :=
  Except.ok (some (Json.arr []))

/-- `Plugin.kernel_list`. -/
def kernel_list : Capability := fun params => do
  let o ← jsDestructure params "instance"
  kernelList (jsGetProp o "instance")

/-- `Plugin.kernelGet`: returns `null` (the not-found sentinel). -/
def kernelGet (_name _inst : Option Json) : Except String (Option Json) :=
  Except.ok (some Json.null)

/-- `Plugin.kernel_get`. -/
def kernel_get : Capability := fun params => do
  let o ← jsDestructure params "name"
  kernelGet (jsGetProp o "name") (jsGetProp o "instance")

/-- `Plugin.kernelSet`: no-op, returns `undefined`. -/
def kernelSet (_name _value _inst : Option Json) : Except String (Option Json) :=
  Except.ok none

/-- `Plugin.kernel_set`. -/
def kernel_set : Capability := fun params => do
  let o ← jsDestructure params "name"
  kernelSet (jsGetProp o "name") (jsGetProp o "value") (jsGetProp o "instance")

/-- `Plugin.kernelRemove`: no-op, returns `undefined`. -/
def kernelRemove (_name _inst : Option Json) : Except String (Option Json) :=
  Except.ok none

/-- `Plugin.kernel_remove`. -/
def kernel_remove : Capability := fun params => do
  let o ← jsDestructure params "name"
  kernelRemove (jsGetProp o "name") (jsGetProp o "instance")

/-- `Plugin.assistantSystemPrompt`: returns the empty string. -/
def assistantSystemPrompt (_task _options _assistant : Option Json) :
    Except String (Option Json) :=
  Except.ok (some (Json.str ""))

/-- `Plugin.assistant_system_prompt`. -/
def assistant_system_prompt : Capability := fun params => do
  let o ← jsDestructure params "task"
  assistantSystemPrompt (jsGetProp o "task") (jsGetProp o "options") (jsGetProp o "assistant")

/-- `Plugin.assistantPerformTask`: the default implementation throws. -/
def assistantPerformTask (_task _options _assistant : Option Json) :
    Except String (Option Json) :=
  Except.error
    "Error: Method `assistantPerformTask` must be implemented by plugins that provide an assistant"

/-- `Plugin.assistant_perform_task`. -/
def assistant_perform_task : Capability := fun params => do
  let o ← jsDestructure params "task"
  assistantPerformTask (jsGetProp o "task") (jsGetProp o "options") (jsGetProp o "assistant")

/-- `Plugin.run`: reads `STENCILA_TRANSPORT` and either starts a
transport (returning `undefined`; the transport side effect is not
observable in the JSON-RPC response) or throws. -/
def runMember (ctx : Ctx) : Except String (Option Json) :=
  match ctx.env "STENCILA_TRANSPORT" with
  | some "stdio" => Except.ok none
  | some "http" => Except.ok none
  | some x => Except.error ("Error: Unknown protocol: " ++ x)
  | none => Except.error "Error: Unknown protocol: undefined"

/-- `successResponse` (src/index.js line 472):
`JSON.stringify({ jsonrpc: "2.0", id, result: result ?? null })`.
An `undefined` id drops the `id` member from the stringified envelope;
an `undefined` result is substituted with `null`, never dropped. -/
def successResponse (id : Option Json) (result : Option Json) : String :=
  String.singleton lbraceC ++ "\"jsonrpc\":\"2.0\"" ++
    (match id with
     | none => ""
     | some j => ",\"id\":" ++ encodeJson j) ++
    ",\"result\":" ++ encodeJson (match result with
     | none => Json.null
     | some v => v) ++
  String.singleton rbraceC

/-- `errorResponse` (src/index.js line 476):
`JSON.stringify({ jsonrpc: "2.0", id, error: { code, message } })`. -/
def errorResponse (id : Option Json) (code : Int) (message : String) : String :=
  String.singleton lbraceC ++ "\"jsonrpc\":\"2.0\"" ++
    (match id with
     | none => ""
     | some j => ",\"id\":" ++ encodeJson j) ++
    ",\"error\":" ++ String.singleton lbraceC ++
      "\"code\":" ++ toString code ++ ",\"message\":" ++ encodeJsonStr message ++
    String.singleton rbraceC ++
  String.singleton rbraceC

/-- The function-valued members reachable through `this[method]` on a
`Plugin` instance with no overrides: the class's own methods in
declaration order, followed by the function members inherited from
`Object.prototype`. The lookup in `handleRequest` is this reflective
property access, not a capability table. `recurse` is the plugin's own
`handleRequest` (reachable as a member), taken at one fuel step less. -/
def pluginMembers (ctx : Ctx) (recurse : String → Except String String) :
    List (String × Capability) :=
  [("health", fun _ => health ctx),
   ("kernelStart", fun p => kernelStart p),
   ("kernel_start", kernel_start),
   ("kernelStop", fun p => kernelStop p),
   ("kernel_stop", kernel_stop),
   ("kernelInfo", fun p => kernelInfo p),
   ("kernel_info", kernel_info),
   ("kernelPackages", fun p => kernelPackages p),
   ("kernel_packages", kernel_packages),
   ("kernelExecute", fun p => kernelExecute p none),
   ("kernel_execute", kernel_execute),
   ("kernelEvaluate", fun p => kernelEvaluate p none),
   ("kernel_evaluate", kernel_evaluate),
   ("kernelList", fun p => kernelList p),
   ("kernel_list", kernel_list),
   ("kernelGet", fun p => kernelGet p none),
   ("kernel_get", kernel_get),
   ("kernelSet", fun p => kernelSet p none none),
   ("kernel_set", kernel_set),
   ("kernelRemove", fun p => kernelRemove p none),
   ("kernel_remove", kernel_remove),
   ("assistantSystemPrompt", fun p => assistantSystemPrompt p none none),
   ("assistant_system_prompt", assistant_system_prompt),
   ("assistantPerformTask", fun p => assistantPerformTask p none none),
   ("assistant_perform_task", assistant_perform_task),
   ("handleRequest", fun p => (recurse (propKey p)).map (fun r => some (Json.str r))),
   ("listenStdio", fun _ => Except.ok none),
   ("listenHttp", fun _ => Except.ok none),
   ("run", fun _ => runMember ctx),
   ("constructor", fun _ =>
     Except.error "TypeError: Class constructor Plugin cannot be invoked without \x27new\x27"),
   ("hasOwnProperty", fun _ => Except.ok (some (Json.bool false))),
   ("isPrototypeOf", fun _ => Except.ok (some (Json.bool false))),
   ("propertyIsEnumerable", fun _ => Except.ok (some (Json.bool false))),
   ("toLocaleString", fun _ => Except.ok (some (Json.str "[object Object]"))),
   ("toString", fun _ => Except.ok (some (Json.str "[object Object]"))),
   ("valueOf", fun _ => Except.ok (some (Json.obj []))),
   ("__defineGetter__", fun _ => Except.error "TypeError: Getter must be a function"),
   ("__defineSetter__", fun _ => Except.error "TypeError: Setter must be a function"),
   ("__lookupGetter__", fun _ => Except.ok none),
   ("__lookupSetter__", fun _ => Except.ok none)]

/-- The property names of `pluginMembers`, as a context-free list. -/
def memberNames : List String :=
  ["health", "kernelStart", "kernel_start", "kernelStop", "kernel_stop",
   "kernelInfo", "kernel_info", "kernelPackages", "kernel_packages",
   "kernelExecute", "kernel_execute", "kernelEvaluate", "kernel_evaluate",
   "kernelList", "kernel_list", "kernelGet", "kernel_get",
   "kernelSet", "kernel_set", "kernelRemove", "kernel_remove",
   "assistantSystemPrompt", "assistant_system_prompt",
   "assistantPerformTask", "assistant_perform_task",
   "handleRequest", "listenStdio", "listenHttp", "run",
   "constructor", "hasOwnProperty", "isPrototypeOf", "propertyIsEnumerable",
   "toLocaleString", "toString", "valueOf",
   "__defineGetter__", "__defineSetter__", "__lookupGetter__", "__lookupSetter__"]

/-- The wire names of the thirteen capabilities of the registry's
contract table (each capability is reachable under its JSON-RPC
snake_case name and its internal camelCase name; `health` has one
name). -/
def capabilityWireNames : List String :=
  ["health", "kernelStart", "kernel_start", "kernelStop", "kernel_stop",
   "kernelInfo", "kernel_info", "kernelPackages", "kernel_packages",
   "kernelExecute", "kernel_execute", "kernelEvaluate", "kernel_evaluate",
   "kernelList", "kernel_list", "kernelGet", "kernel_get",
   "kernelSet", "kernel_set", "kernelRemove", "kernel_remove",
   "assistantSystemPrompt", "assistant_system_prompt",
   "assistantPerformTask", "assistant_perform_task"]

/-- `Plugin.handleRequest` (src/index.js lines 446-480), fuel-indexed
because `handleRequest` is itself a member reachable through
`this[method]`. An `Except.error` is a JavaScript error raised across
the method's boundary (the returned promise rejecting); `Except.ok` is
the returned JSON-RPC response string.
Steps, as in the source: `JSON.parse` the input (failure returns a
`PARSE_ERROR` envelope with id `null`); destructure
`const { id, method, params } = request` (throws on a `null` request —
this destructuring is outside both `try` blocks); look up
`this[method]`; a function member is called with `params` inside a
`try` whose `catch` returns an `INTERNAL_ERROR` envelope; a missing
member returns a `METHOD_NOT_FOUND` envelope naming the method. -/
def handleRequestF (ctx : Ctx) : Nat → String → Except String String
  | 0 => fun _ => Except.error "RangeError: Maximum call stack size exceeded"
  | fuel + 1 => fun requestJson =>
    match parseJson requestJson with
    | none => Except.ok (errorResponse (some Json.null) (-32700) "Parse error")
    | some request =>
      match jsDestructure (some request) "id" with
      | Except.error e => Except.error e
      | Except.ok req =>
        let id := jsGetProp req "id"
        let method := jsGetProp req "method"
        let params := jsGetProp req "params"
        match List.lookup (propKey method) (pluginMembers ctx (handleRequestF ctx fuel)) with
        | some func =>
          match func params with
          | Except.ok result => Except.ok (successResponse id result)
          | Except.error e =>
            Except.ok (errorResponse id (-32603) ("Internal error: " ++ e))
        | none =>
          Except.ok (errorResponse id (-32601)
            ("Method `" ++ propKey method ++ "` not found"))

/-- `Plugin.handleRequest` at its entry point. The fuel exceeds the
input length; a nested self-invocation through the `handleRequest`
member can only be reached with a strictly shorter string (a quoted
substring of the input), so the fuel never runs out on an input the
JavaScript program terminates on. -/
def handleRequest (ctx : Ctx) (requestJson : String) : Except String String :=
  handleRequestF ctx (requestJson.length + 1) requestJson

/-- One incoming HTTP request as observed by the `listenHttp` request
handler: the socket's remote address, the `authorization` and
`content-type` headers (`none` when absent), the HTTP method, and the
accumulated body. -/
structure HttpRequest where
  remoteAddress : Option String
  authorization : Option String
  contentType : Option String
  method : String
  body : String

/-- The observable outcome of one HTTP request: status code, response
body, and whether the body was forwarded to the dispatcher
(`handleRequest` invoked). -/
structure HttpResponse where
  status : Nat
  body : String
  dispatched : Bool
deriving DecidableEq

/-- JavaScript `String.prototype.split` with a one-character separator:
splits at every occurrence, keeping empty segments. -/
def splitChars (sep : Char) : List Char → List (List Char)
  | [] => [[]]
  | c :: cs =>
    let r := splitChars sep cs
    if c == sep then [] :: r
    else
      match r with
      | [] => [[c]]
      | g :: gs => (c :: g) :: gs

def jsSplitSpace (s : String) : List String := (splitChars ' ' s.data).map String.mk

/-- The token extraction of src/index.js lines 511-514:
`authHeader && authHeader.split(" ")[0] === "Bearer" ? authHeader.split(" ")[1] : null`.
`none` models JavaScript `null`/`undefined` (no token extracted). -/
def extractToken (authHeader : Option String) : Option String :=
  match authHeader with
  | none => none
  | some h =>
    if h ≠ "" ∧ (jsSplitSpace h).head? = some "Bearer" then (jsSplitSpace h)[1]?
    else none

/-- The fixed body of the 500 response (src/index.js lines 537-541);
note its member order `jsonrpc, error, id`. -/
def http500body : String :=
  "\x7b\"jsonrpc\":\"2.0\",\"error\":\x7b\"code\":-32603,\"message\":\"Internal error\"\x7d,\"id\":null\x7d"

/-- The per-request handler installed by `Plugin.listenHttp`
(src/index.js lines 502-549), checks in source order:
1. a remote address equal to `127.0.0.1` or `::1` is rejected with 403
   `Access denied` (the source's comment says "Check the request is from
   localhost" but the condition rejects exactly the loopback addresses);
2. a missing, non-`Bearer`, empty, or mismatched token is rejected with
   401 (`!receivedToken || receivedToken !== token`, so an extracted
   empty token is falsy and rejected even when it equals the secret);
3. a request that is not a `POST` with content type exactly
   `application/json` is rejected with 405 and an empty body;
4. otherwise the body is dispatched: 200 with the dispatcher's response,
   or 500 with a fixed body when `handleRequest` itself raised. -/
def listenHttp (ctx : Ctx) (token : String) (req : HttpRequest) : HttpResponse :=
  if req.remoteAddress = some "127.0.0.1" ∨ req.remoteAddress = some "::1" then
    ⟨403, "Access denied", false⟩
  else
    match extractToken req.authorization with
    | none => ⟨401, "Invalid or missing token", false⟩
    | some t =>
      if t = "" ∨ t ≠ token then ⟨401, "Invalid or missing token", false⟩
      else if req.method = "POST" ∧ req.contentType = some "application/json" then
        match handleRequest ctx req.body with
        | Except.ok resp => ⟨200, resp, true⟩
        | Except.error _ => ⟨500, http500body, true⟩
      else ⟨405, "", false⟩

/-- A concrete context for closed evaluations: clock at 0, empty
environment. -/
def ctxDefault : Ctx := ⟨0, fun _ => none⟩

theorem lookup_eq_none_of_not_mem_keys {β : Type} (m : String) :
    ∀ l : List (String × β), m ∉ l.map Prod.fst → List.lookup m l = none := by
  intro l
  induction l with
  | nil => intro _; rfl
  | cons p t ih =>
    intro h
    simp only [List.map_cons, List.mem_cons] at h
    push_neg at h
    simp only [List.lookup]
    rw [show (m == p.1) = false from beq_eq_false_iff_ne.mpr h.1]
    exact ih h.2

/-- Claim C2: every HTTP request whose remote socket address equals
`127.0.0.1` or `::1` is answered 403 `Access denied` with no further
processing — regardless of its credentials, method, content type or
body, and without the dispatcher being invoked. -/
theorem C2_loopback_rejected_403 (ctx : Ctx) (token : String) (req : HttpRequest)
    (h : req.remoteAddress = some "127.0.0.1" ∨ req.remoteAddress = some "::1") :
    listenHttp ctx token req = ⟨403, "Access denied", false⟩ := by
  unfold listenHttp
  rw [if_pos h]

/-- Witness for C2: a loopback request carrying a valid token and a
well-formed POST body is still answered 403 and never dispatched. -/
theorem C2_loopback_rejected_403_witness :
    ((some "127.0.0.1" : Option String) = some "127.0.0.1" ∨
      (some "127.0.0.1" : Option String) = some "::1") ∧
    listenHttp ctxDefault "secret"
      ⟨some "127.0.0.1", some "Bearer secret", some "application/json", "POST",
        "\x7b\"id\":\"1\",\"method\":\"health\",\"params\":\x7b\x7d\x7d"⟩ =
      ⟨403, "Access denied", false⟩ :=
  ⟨Or.inl rfl, C2_loopback_rejected_403 ctxDefault "secret" _ (Or.inl rfl)⟩

/-- Counterexample to C3 as stated: a request that lacks an
`Authorization` header but arrives from `127.0.0.1` is answered 403 by
the preceding origin check, not 401. -/
theorem C3_counterexample :
    (listenHttp ctxDefault "secret" ⟨some "127.0.0.1", none, none, "POST", ""⟩).status = 403 ∧
    (listenHttp ctxDefault "secret" ⟨some "127.0.0.1", none, none, "POST", ""⟩).status ≠ 401 :=
  ⟨rfl, by decide⟩

/-- Claim C3 (amended to requests that pass the preceding origin check):
every HTTP request from a non-loopback remote address whose
`Authorization` header yields no `Bearer` token, or an empty one, or one
not exactly equal to the configured secret, is answered 401 and its body
is never forwarded to the dispatcher. -/
theorem C3_amended_unauthorized_401 (ctx : Ctx) (token : String) (req : HttpRequest)
    (hremote : ¬(req.remoteAddress = some "127.0.0.1" ∨ req.remoteAddress = some "::1"))
    (hauth : ∀ t, extractToken req.authorization = some t → t = "" ∨ t ≠ token) :
    listenHttp ctx token req = ⟨401, "Invalid or missing token", false⟩ := by
  unfold listenHttp
  rw [if_neg hremote]
  cases h : extractToken req.authorization with
  | none => rfl
  | some t =>
    simp only []
    rw [if_pos (hauth t h)]

/-- Witness for C3 (amended): a non-loopback request with a wrong token
is answered 401 and not dispatched. -/
theorem C3_amended_unauthorized_401_witness :
    listenHttp ctxDefault "secret"
      ⟨some "10.0.0.1", some "Bearer wrong", some "application/json", "POST",
        "\x7b\"id\":\"1\",\"method\":\"health\",\"params\":\x7b\x7d\x7d"⟩ =
      ⟨401, "Invalid or missing token", false⟩ :=
  C3_amended_unauthorized_401 ctxDefault "secret" _ (by decide)
    (fun t ht => by
      rw [show extractToken (some "Bearer wrong") = some "wrong" from rfl] at ht
      injection ht with h3
      subst h3
      right
      decide)

/-- Counterexample to C8 as stated: a GET request (not a POST with JSON
content type) that lacks credentials and arrives from a non-loopback
address is answered 401 by the preceding authentication check, not 405. -/
theorem C8_counterexample :
    ¬("GET" = "POST" ∧ (none : Option String) = some "application/json") ∧
    (listenHttp ctxDefault "secret" ⟨some "10.0.0.1", none, none, "GET", ""⟩).status = 401 ∧
    (listenHttp ctxDefault "secret" ⟨some "10.0.0.1", none, none, "GET", ""⟩).status ≠ 405 :=
  ⟨by decide, rfl, by decide⟩

/-- Claim C8 (amended to requests that pass the preceding origin and
authentication checks): every such HTTP request that is not a `POST`
with content type `application/json` is answered 405 with an empty body,
and its body is never forwarded to the dispatcher. -/
theorem C8_amended_authed_non_post_405 (ctx : Ctx) (token : String) (req : HttpRequest)
    (hremote : ¬(req.remoteAddress = some "127.0.0.1" ∨ req.remoteAddress = some "::1"))
    (hauth : ∃ t, extractToken req.authorization = some t ∧ t ≠ "" ∧ t = token)
    (hmct : ¬(req.method = "POST" ∧ req.contentType = some "application/json")) :
    listenHttp ctx token req = ⟨405, "", false⟩ := by
  obtain ⟨t, ht, hne, heq⟩ := hauth
  unfold listenHttp
  rw [if_neg hremote]
  rw [ht]
  simp only []
  have hnot : ¬(t = "" ∨ t ≠ token) := by
    push_neg
    exact ⟨hne, heq⟩
  rw [if_neg hnot, if_neg hmct]

/-- Witness for C8 (amended): an authenticated GET request is answered
405 with an empty body. -/
theorem C8_amended_authed_non_post_405_witness :
    listenHttp ctxDefault "secret"
      ⟨some "10.0.0.1", some "Bearer secret", none, "GET", ""⟩ = ⟨405, "", false⟩ :=
  C8_amended_authed_non_post_405 ctxDefault "secret" _ (by decide)
    ⟨"secret", rfl, by decide, rfl⟩ (by decide)

/-- Claim C9: under an empty configured secret, every HTTP request from
a non-loopback address is answered 401 and never dispatched: a missing
or non-`Bearer` header extracts no token, a non-empty extracted token
differs from the empty secret, and an extracted empty token — even
though it equals the secret — is falsy and treated as missing. -/
theorem C9_empty_secret_always_401 (ctx : Ctx) (req : HttpRequest)
    (hremote : ¬(req.remoteAddress = some "127.0.0.1" ∨ req.remoteAddress = some "::1")) :
    listenHttp ctx "" req = ⟨401, "Invalid or missing token", false⟩ := by
  unfold listenHttp
  rw [if_neg hremote]
  cases h : extractToken req.authorization with
  | none => rfl
  | some t =>
    simp only []
    by_cases ht : t = ""
    · rw [if_pos (Or.inl ht)]
    · rw [if_pos (Or.inr ht)]

/-- Witness for C9: the header `Bearer ` extracts exactly the empty
token — equal to the empty secret — and the request is still answered
401 without being dispatched. -/
theorem C9_empty_secret_always_401_witness :
    extractToken (some "Bearer ") = some "" ∧
    listenHttp ctxDefault ""
      ⟨some "10.0.0.1", some "Bearer ", some "application/json", "POST",
        "\x7b\"id\":\"1\",\"method\":\"health\",\"params\":\x7b\x7d\x7d"⟩ =
      ⟨401, "Invalid or missing token", false⟩ :=
  ⟨rfl, C9_empty_secret_always_401 ctxDefault _ (by decide)⟩

/-- Claim C5: every input string that `JSON.parse` rejects is answered
with the `PARSE_ERROR` (-32700) failure envelope carrying id `null`,
and the dispatcher returns before the method lookup, so no capability is
invoked. -/
theorem C5_malformed_input_parse_error (ctx : Ctx) (s : String) (h : parseJson s = none) :
    handleRequest ctx s = Except.ok (errorResponse (some Json.null) (-32700) "Parse error") := by
  unfold handleRequest handleRequestF
  rw [h]

/-- Witness for C5: the single-brace string is rejected by the parser
and answered with the exact `PARSE_ERROR` envelope. -/
theorem C5_malformed_input_parse_error_witness :
    parseJson "\x7b" = none ∧
    handleRequest ctxDefault "\x7b" =
      Except.ok "\x7b\"jsonrpc\":\"2.0\",\"id\":null,\"error\":\x7b\"code\":-32700,\"message\":\"Parse error\"\x7d\x7d" :=
  ⟨rfl, C5_malformed_input_parse_error ctxDefault "\x7b" rfl⟩

/-- Claim C1 (code bug): the input string `null` parses successfully to
JSON `null`, and `handleRequest` then raises a `TypeError` across its
own boundary — the destructuring `const { id, method, params } = request`
sits outside both `try` blocks — instead of returning a failure
envelope. -/
theorem C1_dispatch_raises_on_null_input :
    parseJson "null" = some Json.null ∧
    ∃ e, handleRequest ctxDefault "null" = Except.error e :=
  ⟨rfl, _, rfl⟩

/-- Claim C10: every input that parses as a JSON object is answered with
an envelope — success or failure — whose id member is exactly the
request's `id` value (absent when absent); the `null` id is reserved to
the pre-parse `PARSE_ERROR` path. -/
theorem C10_response_id_equals_request_id (ctx : Ctx) (s : String)
    (kvs : List (String × Json)) (h : parseJson s = some (Json.obj kvs)) :
    ∃ out, handleRequest ctx s = Except.ok out ∧
      ((∃ r, out = successResponse (jsGetProp (Json.obj kvs) "id") r) ∨
       (∃ c m, out = errorResponse (jsGetProp (Json.obj kvs) "id") c m)) := by
  unfold handleRequest handleRequestF
  rw [h]
  simp only [jsDestructure]
  cases hl : List.lookup (propKey (jsGetProp (Json.obj kvs) "method"))
      (pluginMembers ctx (handleRequestF ctx s.length)) with
  | none => exact ⟨_, rfl, Or.inr ⟨_, _, rfl⟩⟩
  | some f =>
    simp only []
    cases hf : f (jsGetProp (Json.obj kvs) "params") with
    | ok r => exact ⟨_, rfl, Or.inl ⟨_, rfl⟩⟩
    | error e => exact ⟨_, rfl, Or.inr ⟨_, _, rfl⟩⟩

/-- Witness for C10: a request with id `"7"` and an unknown method is
answered with an envelope carrying id `"7"`. -/
theorem C10_response_id_equals_request_id_witness :
    ∃ out, handleRequest ctxDefault "\x7b\"id\":\"7\",\"method\":\"nope\",\"params\":\x7b\x7d\x7d" =
        Except.ok out ∧
      ((∃ r, out = successResponse (some (Json.str "7")) r) ∨
       (∃ c m, out = errorResponse (some (Json.str "7")) c m)) :=
  C10_response_id_equals_request_id ctxDefault _
    [("id", Json.str "7"), ("method", Json.str "nope"), ("params", Json.obj [])] rfl

/-- Counterexample to C4 as stated: the method string `toString` names
none of the thirteen capabilities of the contract table, yet the
dispatch does not return a `METHOD_NOT_FOUND` envelope — the reflective
lookup `this[method]` finds the inherited `Object.prototype.toString`,
invokes it, and returns a success envelope. -/
theorem C4_counterexample :
    "toString" ∉ capabilityWireNames ∧
    handleRequest ctxDefault "\x7b\"id\":\"9\",\"method\":\"toString\",\"params\":\x7b\x7d\x7d" =
      Except.ok "\x7b\"jsonrpc\":\"2.0\",\"id\":\"9\",\"result\":\"[object Object]\"\x7d" ∧
    "\x7b\"jsonrpc\":\"2.0\",\"id\":\"9\",\"result\":\"[object Object]\"\x7d" ≠
      errorResponse (some (Json.str "9")) (-32601) "Method `toString` not found" :=
  ⟨by decide, rfl, by decide⟩

/-- Claim C4 (amended): the lookup is a reflective property access, not
a capability table; a method string that names no function-valued member
of the plugin object is answered with a `METHOD_NOT_FOUND` (-32601)
failure envelope whose message contains the method name, but every
function-valued member — including the internal `handleRequest`,
`listenStdio`, `listenHttp` and `run` and the members inherited from
`Object.prototype` — is invokable by a wire request. -/
theorem C4_amended_unknown_method_not_found (ctx : Ctx) (s : String)
    (kvs : List (String × Json)) (h : parseJson s = some (Json.obj kvs))
    (hm : propKey (jsGetProp (Json.obj kvs) "method") ∉ memberNames) :
    handleRequest ctx s = Except.ok (errorResponse (jsGetProp (Json.obj kvs) "id") (-32601)
      ("Method `" ++ propKey (jsGetProp (Json.obj kvs) "method") ++ "` not found")) := by
  unfold handleRequest handleRequestF
  rw [h]
  simp only [jsDestructure]
  rw [lookup_eq_none_of_not_mem_keys _ _ (by
    rw [show (pluginMembers ctx (handleRequestF ctx s.length)).map Prod.fst = memberNames
      from rfl]
    exact hm)]

/-- Witness for C4 (amended): the method string `nope` names no member
and is answered with the `METHOD_NOT_FOUND` envelope naming it. -/
theorem C4_amended_unknown_method_not_found_witness :
    ("nope" ∉ memberNames) ∧
    handleRequest ctxDefault "\x7b\"id\":\"3\",\"method\":\"nope\",\"params\":\x7b\x7d\x7d" =
      Except.ok (errorResponse (some (Json.str "3")) (-32601) "Method `nope` not found") :=
  ⟨by decide,
   C4_amended_unknown_method_not_found ctxDefault _
     [("id", Json.str "3"), ("method", Json.str "nope"), ("params", Json.obj [])]
     rfl (by decide)⟩

/-- Claim C6: a well-formed request naming `kernelInfo`/`kernel_info` or
`assistantPerformTask`/`assistant_perform_task` against the base
registry (no overrides) is answered with an `INTERNAL_ERROR` (-32603)
failure envelope whose message carries the default implementation's
diagnostic ("must be overridden" / "must be implemented"): the thrown
default error is caught and converted, never a crash. -/
theorem C6_default_throwers_internal_error (ctx : Ctx) (s : String)
    (kvs : List (String × Json)) (h : parseJson s = some (Json.obj kvs))
    (hparams : ∃ pk, jsGetProp (Json.obj kvs) "params" = some (Json.obj pk)) :
    ((propKey (jsGetProp (Json.obj kvs) "method") = "kernelInfo" ∨
      propKey (jsGetProp (Json.obj kvs) "method") = "kernel_info") →
      handleRequest ctx s = Except.ok (errorResponse (jsGetProp (Json.obj kvs) "id") (-32603)
        "Internal error: Error: Method `kernelInfo` must be overridden by plugins that provide one or more kernels")) ∧
    ((propKey (jsGetProp (Json.obj kvs) "method") = "assistantPerformTask" ∨
      propKey (jsGetProp (Json.obj kvs) "method") = "assistant_perform_task") →
      handleRequest ctx s = Except.ok (errorResponse (jsGetProp (Json.obj kvs) "id") (-32603)
        "Internal error: Error: Method `assistantPerformTask` must be implemented by plugins that provide an assistant")) := by
  obtain ⟨pk, hp⟩ := hparams
  constructor
  · intro hm
    unfold handleRequest handleRequestF
    rw [h]
    simp only [jsDestructure]
    rcases hm with hm | hm <;> rw [hm, hp] <;> rfl
  · intro hm
    unfold handleRequest handleRequestF
    rw [h]
    simp only [jsDestructure]
    rcases hm with hm | hm <;> rw [hm, hp] <;> rfl

/-- Witness for C6: concrete `kernel_info` and `assistant_perform_task`
requests are answered with the respective `INTERNAL_ERROR` envelopes. -/
theorem C6_default_throwers_internal_error_witness :
    handleRequest ctxDefault
      "\x7b\"id\":\"4\",\"method\":\"kernel_info\",\"params\":\x7b\"instance\":\"k1\"\x7d\x7d" =
      Except.ok (errorResponse (some (Json.str "4")) (-32603)
        "Internal error: Error: Method `kernelInfo` must be overridden by plugins that provide one or more kernels") ∧
    handleRequest ctxDefault
      "\x7b\"id\":\"5\",\"method\":\"assistant_perform_task\",\"params\":\x7b\"task\":\"t\"\x7d\x7d" =
      Except.ok (errorResponse (some (Json.str "5")) (-32603)
        "Internal error: Error: Method `assistantPerformTask` must be implemented by plugins that provide an assistant") :=
  ⟨(C6_default_throwers_internal_error ctxDefault
      "\x7b\"id\":\"4\",\"method\":\"kernel_info\",\"params\":\x7b\"instance\":\"k1\"\x7d\x7d"
      [("id", Json.str "4"), ("method", Json.str "kernel_info"),
       ("params", Json.obj [("instance", Json.str "k1")])] rfl
      ⟨[("instance", Json.str "k1")], rfl⟩).1 (Or.inr rfl),
   (C6_default_throwers_internal_error ctxDefault
      "\x7b\"id\":\"5\",\"method\":\"assistant_perform_task\",\"params\":\x7b\"task\":\"t\"\x7d\x7d"
      [("id", Json.str "5"), ("method", Json.str "assistant_perform_task"),
       ("params", Json.obj [("task", Json.str "t")])] rfl
      ⟨[("task", Json.str "t")], rfl⟩).2 (Or.inr rfl)⟩

/-- Claim C7: a well-formed request naming an unoverridden no-op
capability (`kernelStop`, `kernelSet`, `kernelRemove`, under either wire
name) is answered with a success envelope whose `result` member is
present and `null`: the capability's `undefined` return value is
substituted with `null` by `successResponse`, never encoded as an absent
member. -/
theorem C7_noop_capabilities_null_result (ctx : Ctx) (s : String)
    (kvs : List (String × Json)) (h : parseJson s = some (Json.obj kvs))
    (hparams : ∃ pk, jsGetProp (Json.obj kvs) "params" = some (Json.obj pk))
    (hm : propKey (jsGetProp (Json.obj kvs) "method") ∈
      ["kernelStop", "kernel_stop", "kernelSet", "kernel_set", "kernelRemove", "kernel_remove"]) :
    handleRequest ctx s = Except.ok (successResponse (jsGetProp (Json.obj kvs) "id") none) ∧
    successResponse (jsGetProp (Json.obj kvs) "id") none =
      successResponse (jsGetProp (Json.obj kvs) "id") (some Json.null) := by
  obtain ⟨pk, hp⟩ := hparams
  refine ⟨?_, rfl⟩
  unfold handleRequest handleRequestF
  rw [h]
  simp only [jsDestructure]
  simp only [List.mem_cons, List.not_mem_nil, or_false] at hm
  rcases hm with hm | hm | hm | hm | hm | hm <;> rw [hm, hp] <;> rfl

/-- Witness for C7: a concrete `kernel_stop` request is answered with a
success envelope whose `result` is `null` (the exact encoded string is
shown equal too). -/
theorem C7_noop_capabilities_null_result_witness :
    (handleRequest ctxDefault
        "\x7b\"id\":\"5\",\"method\":\"kernel_stop\",\"params\":\x7b\"instance\":\"k1\"\x7d\x7d" =
      Except.ok (successResponse (some (Json.str "5")) none) ∧
     successResponse (some (Json.str "5")) none =
       successResponse (some (Json.str "5")) (some Json.null)) ∧
    successResponse (some (Json.str "5")) none =
      "\x7b\"jsonrpc\":\"2.0\",\"id\":\"5\",\"result\":null\x7d" :=
  ⟨C7_noop_capabilities_null_result ctxDefault _
     [("id", Json.str "5"), ("method", Json.str "kernel_stop"),
      ("params", Json.obj [("instance", Json.str "k1")])] rfl
     ⟨[("instance", Json.str "k1")], rfl⟩ (by decide), rfl⟩
